import Mathlib

/-!
Verification of the fabtools git module (fabtools/git.py).

The module builds shell command strings and dispatches them to one of three
remote-execution primitives, optionally inside a working-directory scope.
We embed each public function as a pure function returning the trace of
effects it performs (entering or leaving a working-directory scope, and
invoking an execution primitive with a command string) together with the
outcome of the call (normal return, a locally raised ValueError, or a
propagated execution failure).  A boolean parameter models whether the
remote execution primitive raises; the Python with-statement guarantees
that a scope entered is exited on every path, which the embedding encodes
by emitting the scope-exit event unconditionally before propagating the
failure outcome.
-/

namespace Fabtools

/-- Rendering of a Python value by the %s format specifier, for the values
the module receives: a string renders as itself, None renders as "None". -/
def pyStr : Option String → String
  | none => "None"
  | some s => s

/-- Execution primitives the module can dispatch to.  The sudo primitive
carries the user argument exactly as passed at the call site. -/
inductive Primitive where
  | run : Primitive
  | run_as_root : Primitive
  | sudo : Option String → Primitive
  deriving DecidableEq, Repr

/-- Observable effects performed by a call: entering a working-directory
scope, leaving it, and invoking an execution primitive with a command. -/
inductive Event where
  | enter_cd : String → Event
  | exit_cd : Event
  | exec : Primitive → String → Event
  deriving DecidableEq, Repr

/-- Outcome of a call: normal return, a ValueError raised locally with the
given message, or an execution failure propagated from the primitive. -/
inductive Outcome where
  | ok : Outcome
  | valueError : String → Outcome
  | execFailure : Outcome
  deriving DecidableEq, Repr

/-- Embedding of clone (git.py lines 22-51).  The command string is built
by direct interpolation of remote_url, then of path when present, and is
dispatched by the three-way if-chain of the source.  The fails parameter
tells whether the invoked execution primitive raises. -/
def clone (remote_url : Option String) (path : Option String)
    (use_sudo : Bool) (user : Option String) (fails : Bool) :
    List Event × Outcome :=
  let cmd := "git clone --quiet " ++ pyStr remote_url
  let cmd := match path with
    | some p => cmd ++ " " ++ p
    | none => cmd
  let events :=
    if use_sudo && user.isNone then
      [Event.exec Primitive.run_as_root cmd]
    else if use_sudo then
      [Event.exec (Primitive.sudo user) cmd]
    else
      [Event.exec Primitive.run cmd]
  (events, if fails then Outcome.execFailure else Outcome.ok)

/-- Error message of pull for a missing path (git.py lines 77-78, two
adjacent Python string literals concatenated). -/
def pullErrorMessage : String :=
  "Path to the working copy is needed to pull from a remote repository."

/-- Error message of checkout for a missing path (git.py lines 115-116). -/
def checkoutErrorMessage : String :=
  "Path to the working copy is needed to checkout a branch"

/-- Embedding of pull (git.py lines 54-90).  A missing path raises
ValueError before any effect; otherwise the command is built, optionally
wrapped with a stash step, and dispatched inside a cd scope bound to path.
The with-statement semantics emit exit_cd on every path, also when the
primitive fails. -/
def pull (path : Option String) (use_sudo : Bool) (user : Option String)
    (stash : Bool) (fails : Bool) : List Event × Outcome :=
  match path with
  | none => ([], Outcome.valueError pullErrorMessage)
  | some p =>
    let cmd := "git pull"
    let cmd := if stash then "(git stash; " ++ cmd ++ ")" else cmd
    let body :=
      if use_sudo && user.isNone then
        [Event.exec Primitive.run_as_root cmd]
      else if use_sudo then
        [Event.exec (Primitive.sudo user) cmd]
      else
        [Event.exec Primitive.run cmd]
    ([Event.enter_cd p] ++ body ++ [Event.exit_cd],
     if fails then Outcome.execFailure else Outcome.ok)

/-- Embedding of checkout (git.py lines 93-126).  A missing path raises
ValueError before any effect; otherwise git checkout of the given branch
is dispatched inside a cd scope bound to path, the scope being exited on
every path. -/
def checkout (path : Option String) (branch : String)
    (use_sudo : Bool) (user : Option String) (fails : Bool) :
    List Event × Outcome :=
  match path with
  | none => ([], Outcome.valueError checkoutErrorMessage)
  | some p =>
    let cmd := "git checkout " ++ branch
    let body :=
      if use_sudo && user.isNone then
        [Event.exec Primitive.run_as_root cmd]
      else if use_sudo then
        [Event.exec (Primitive.sudo user) cmd]
      else
        [Event.exec Primitive.run cmd]
    ([Event.enter_cd p] ++ body ++ [Event.exit_cd],
     if fails then Outcome.execFailure else Outcome.ok)

/-- Dispatch if-chain shared verbatim by the three operations (git.py
lines 46-51, 85-90, 121-126), as a standalone function of its inputs. -/
def dispatchPrim (use_sudo : Bool) (user : Option String) : Primitive :=
  if use_sudo && user.isNone then Primitive.run_as_root
  else if use_sudo then Primitive.sudo user
  else Primitive.run

/-- Modelled from the spec: the three-way dispatch selection rule as the
spec words it, to be compared with the dispatch the source performs. -/
def specDispatch (use_sudo : Bool) (user : Option String) : Primitive :=
  if use_sudo then
    match user with
    | none => Primitive.run_as_root
    | some u => Primitive.sudo (some u)
  else Primitive.run

/-- Primitives invoked along a trace, in order. -/
def execPrims (events : List Event) : List Primitive :=
  events.filterMap fun e =>
    match e with
    | Event.exec pr _ => some pr
    | _ => none

/-- Command strings issued along a trace, in order. -/
def execCmds (events : List Event) : List String :=
  events.filterMap fun e =>
    match e with
    | Event.exec _ c => some c
    | _ => none

/-- Effect of one event on the stack of active working-directory scopes. -/
def applyEvent (stack : List String) : Event → List String
  | Event.enter_cd p => p :: stack
  | Event.exit_cd => stack.tail
  | Event.exec _ _ => stack

/-- Stack of active working-directory scopes after a trace runs, starting
from a given ambient stack. -/
def cwdAfter (stack : List String) (events : List Event) : List String :=
  events.foldl applyEvent stack

/-- Primitive invocations of a trace, each paired with the stack of
working-directory scopes active at the moment it is issued. -/
def execsUnder (stack : List String) :
    List Event → List (List String × Primitive × String)
  | [] => []
  | Event.enter_cd p :: es => execsUnder (p :: stack) es
  | Event.exit_cd :: es => execsUnder stack.tail es
  | Event.exec pr c :: es => (stack, pr, c) :: execsUnder stack es

/-- C1. For every operation and every argument combination, the execution
primitive is selected by the spec's three-way rule: use_sudo true and user
unset gives run_as_root, use_sudo true and user set gives sudo with that
user, and anything else gives plain run. -/
theorem dispatch_three_way_rule (ru path : Option String) (p b : String)
    (use_sudo : Bool) (user : Option String) (stash fails : Bool) :
    execPrims (clone ru path use_sudo user fails).1 = [specDispatch use_sudo user]
    ∧ execPrims (pull (some p) use_sudo user stash fails).1 = [specDispatch use_sudo user]
    ∧ execPrims (checkout (some p) b use_sudo user fails).1 = [specDispatch use_sudo user] := by
  cases use_sudo <;> cases user <;>
    simp [clone, pull, checkout, execPrims, specDispatch]

/-- C2. For every pair of remote_url and path, clone issues exactly the
command git clone --quiet followed by remote_url, with path appended after
a space when present; the values are interpolated directly, unescaped. -/
theorem clone_command_string (r : String) (use_sudo fails : Bool)
    (user : Option String) :
    execCmds (clone (some r) none use_sudo user fails).1
      = ["git clone --quiet " ++ r]
    ∧ ∀ p : String,
        execCmds (clone (some r) (some p) use_sudo user fails).1
          = ["git clone --quiet " ++ r ++ " " ++ p] := by
  cases use_sudo <;> cases user <;>
    simp [clone, execCmds, pyStr]

/-- C3. Pull with path unset and checkout with path unset each raise a
local ValueError with an empty effect trace, so before any execution
primitive and before any scope entry, and the two messages differ. -/
theorem missing_path_value_error (use_sudo stash fails : Bool)
    (user : Option String) (b : String) :
    pull none use_sudo user stash fails = ([], Outcome.valueError pullErrorMessage)
    ∧ checkout none b use_sudo user fails = ([], Outcome.valueError checkoutErrorMessage)
    ∧ pullErrorMessage ≠ checkoutErrorMessage := by
  refine ⟨rfl, rfl, ?_⟩
  decide

/-- C4. For every non-None path, pull with stash issues exactly the
compound command of stash then pull inside a scope bound to path, and
pull without stash issues exactly git pull inside the same scope. -/
theorem pull_command_in_scope (p : String) (use_sudo fails : Bool)
    (user : Option String) :
    (pull (some p) use_sudo user true fails).1
      = [Event.enter_cd p,
         Event.exec (dispatchPrim use_sudo user) "(git stash; git pull)",
         Event.exit_cd]
    ∧ (pull (some p) use_sudo user false fails).1
      = [Event.enter_cd p,
         Event.exec (dispatchPrim use_sudo user) "git pull",
         Event.exit_cd] := by
  cases use_sudo <;> cases user <;>
    simp [pull, dispatchPrim]

/-- C5. For every non-None path and branch, checkout issues exactly
git checkout of that branch inside a scope bound to path; with the default
branch master the issued command is git checkout master. -/
theorem checkout_command_in_scope (p b : String) (use_sudo fails : Bool)
    (user : Option String) :
    (checkout (some p) b use_sudo user fails).1
      = [Event.enter_cd p,
         Event.exec (dispatchPrim use_sudo user) ("git checkout " ++ b),
         Event.exit_cd]
    ∧ (checkout (some p) "master" use_sudo user fails).1
      = [Event.enter_cd p,
         Event.exec (dispatchPrim use_sudo user) "git checkout master",
         Event.exit_cd] := by
  cases use_sudo <;> cases user <;>
    simp [checkout, dispatchPrim]

/-- C6. For pull and checkout, the working-directory scope stack after the
call equals the stack before it, for every argument combination including
a failing execution primitive and a missing path. -/
theorem scope_restored_on_all_paths (path : Option String) (b : String)
    (use_sudo stash fails : Bool) (user : Option String)
    (stack : List String) :
    cwdAfter stack (pull path use_sudo user stash fails).1 = stack
    ∧ cwdAfter stack (checkout path b use_sudo user fails).1 = stack := by
  cases path <;> cases use_sudo <;> cases user <;>
    simp [pull, checkout, cwdAfter, applyEvent]

/-- C7. When use_sudo is false the user argument has no effect: two calls
to the same operation differing only in user produce identical traces and
outcomes. -/
theorem user_noninterference_without_sudo (ru path : Option String)
    (b : String) (u1 u2 : Option String) (stash fails : Bool) :
    clone ru path false u1 fails = clone ru path false u2 fails
    ∧ pull path false u1 stash fails = pull path false u2 stash fails
    ∧ checkout path b false u1 fails = checkout path b false u2 fails := by
  cases path <;> simp [clone, pull, checkout]

/-- C8. Every invocation that does not raise the local invalid-argument
error invokes exactly one execution primitive and issues exactly one
command string. -/
theorem exactly_one_primitive_invocation (ru : Option String)
    (path : Option String) (p b : String) (use_sudo stash fails : Bool)
    (user : Option String) :
    (execPrims (clone ru path use_sudo user fails).1).length = 1
    ∧ (execCmds (clone ru path use_sudo user fails).1).length = 1
    ∧ (execPrims (pull (some p) use_sudo user stash fails).1).length = 1
    ∧ (execCmds (pull (some p) use_sudo user stash fails).1).length = 1
    ∧ (execPrims (checkout (some p) b use_sudo user fails).1).length = 1
    ∧ (execCmds (checkout (some p) b use_sudo user fails).1).length = 1 := by
  cases use_sudo <;> cases user <;>
    simp [clone, pull, checkout, execPrims, execCmds]

/-- C9. Clone performs no local validation: for every remote_url including
None, and every path, it never yields a ValueError, and it always issues
exactly one interpolated command through one execution primitive. -/
theorem clone_never_validates (ru path : Option String)
    (use_sudo fails : Bool) (user : Option String) :
    (∀ m, (clone ru path use_sudo user fails).2 ≠ Outcome.valueError m)
    ∧ ∃ c, (clone ru path use_sudo user fails).1
        = [Event.exec (dispatchPrim use_sudo user) c] := by
  cases use_sudo <;> cases user <;> cases fails <;>
    simp [clone, dispatchPrim]

/-- C10. Clone enters no working-directory scope: its single primitive
invocation runs under the ambient scope stack unchanged, and the stack
after the call equals the stack before it, for every argument
combination. -/
theorem clone_no_cd_scope (ru path : Option String)
    (use_sudo fails : Bool) (user : Option String) (stack : List String) :
    (∀ e ∈ (clone ru path use_sudo user fails).1,
       (∀ q, e ≠ Event.enter_cd q) ∧ e ≠ Event.exit_cd)
    ∧ (∃ c, execsUnder stack (clone ru path use_sudo user fails).1
        = [(stack, dispatchPrim use_sudo user, c)])
    ∧ cwdAfter stack (clone ru path use_sudo user fails).1 = stack := by
  cases use_sudo <;> cases user <;>
    simp [clone, dispatchPrim, execsUnder, cwdAfter, applyEvent]

end Fabtools
